import Mathlib

/-!
Verification of the AI response-parsing core of the trading-journal app
(`aapp/ai_analyzer.py`).  The Python functions `_parse_analysis`,
`analyze_chart` and the image-message construction in `analyze_chart` are
shallowly embedded over `List Char` (Python `str` values are modelled as
lists of characters; `str.split('\n')`, `str.strip()`, `str.upper()`,
`str.lower()`, `str.replace`, `str.startswith`, the `in` substring test,
`int(...)` and ordered `dict` update are modelled by the executable
functions below).
-/

set_option maxRecDepth 4000

namespace AApp

/-- Whitespace characters stripped by Python `str.strip()` (ASCII range). -/
def isPySpace (c : Char) : Bool :=
  c = ' ' || c = '\t' || c = '\n' || c = '\r' || c = '\x0b' || c = '\x0c'

/-- Model of Python `str.strip()`: drop leading and trailing whitespace. -/
def pyStrip (l : List Char) : List Char :=
  ((l.dropWhile isPySpace).reverse.dropWhile isPySpace).reverse

/-- Model of Python `text.split('\n')`: split on newline characters, keeping
empty segments; the empty string yields the singleton `[""]`. -/
def splitNl : List Char → List (List Char)
  | [] => [[]]
  | c :: rest =>
    if c = '\n' then [] :: splitNl rest
    else
      match splitNl rest with
      | [] => [[c]]
      | h :: t => (c :: h) :: t

/-- Model of the Python containment test `needle in hay` on strings:
`startsWithL hay needle` is true when `needle` is an initial segment of
`hay`. -/
def startsWithL : List Char → List Char → Bool
  | _, [] => true
  | [], _ :: _ => false
  | c :: cs, d :: ds => c = d && startsWithL cs ds

/-- Model of the Python substring test `needle in hay`. -/
def pyIn (needle : List Char) : List Char → Bool
  | [] => needle.isEmpty
  | c :: cs => startsWithL (c :: cs) needle || pyIn needle cs

/-- Model of Python `line.split(':', 1)[1]`: everything after the first
colon (empty when no colon occurs; the callers in `_parse_analysis` only
reach this after establishing that a colon is present). -/
def afterFirstColon (l : List Char) : List Char :=
  (l.dropWhile (fun c => ¬ c = ':')).drop 1

/-- Model of Python `line.split(':', 1)[0]`: everything before the first
colon. -/
def beforeFirstColon (l : List Char) : List Char :=
  l.takeWhile (fun c => ¬ c = ':')

/-- Model of Python `int(s)` restricted to the strings produced at the one
call site in `_parse_analysis` (a concatenation of digit characters): the
decimal value when `s` is a non-empty all-digit string, `none` (a raised
`ValueError`) otherwise — in particular on the empty string. -/
def pyInt (s : List Char) : Option Int :=
  if s ≠ [] ∧ s.all Char.isDigit then
    some (s.foldl (fun a c => a * 10 + ((c.toNat : Int) - 48)) 0)
  else none

/-- Model of the normalization `key.strip().lower().replace(' ', '_')`
applied to scenario field names in `_parse_analysis`. -/
def normKey (k : List Char) : List Char :=
  ((pyStrip k).map Char.toLower).map (fun c => if c = ' ' then '_' else c)

/-- Insertion into a Python `dict` rendered as an insertion-ordered
association list: an existing key is overwritten in place, a new key is
appended at the end. -/
def dictInsert (d : List (List Char × List Char)) (k v : List Char) :
    List (List Char × List Char) :=
  match d with
  | [] => [(k, v)]
  | (k', v') :: rest => if k' = k then (k, v) :: rest else (k', v') :: dictInsert rest k v

/-- The structured record built by `_parse_analysis` (the `parsed` dict of
the Python source, with its fixed key set turned into fields). -/
structure AnalysisResult where
  pair : List Char
  verdict : List Char
  confidence : Int
  setup_type : List Char
  market_story : List Char
  confluences : List (List Char)
  scenario_a : List (List Char × List Char)
  scenario_b : List (List Char × List Char)
  scenario_c : List (List Char × List Char)
  key_levels : List (List Char × List Char)
  deriving Repr, DecidableEq

/-- The values taken by the Python `current_section` variable (apart from
`None`, which is modelled by `Option`). -/
inductive CurSection where
  | story
  | confluences
  | scenario_a
  | scenario_b
  | scenario_c
  | levels
  deriving Repr, DecidableEq

/-- The initial `parsed` dict of `_parse_analysis`, before the line loop. -/
def initResult (pair : List Char) : AnalysisResult :=
  { pair := pair
    verdict := "UNKNOWN".data
    confidence := 5
    setup_type := "Unknown".data
    market_story := []
    confluences := []
    scenario_a := []
    scenario_b := []
    scenario_c := []
    key_levels := [] }

/-- Classification of one stripped line by the `if/elif` chain of
`_parse_analysis`, in source order: the three header-field patterns are
checked first against the upper-cased line, then the six section-header
patterns, then whether the line is empty; any remaining line is section
content. -/
inductive LineClass where
  | verdictLine
  | confidenceLine
  | setupLine
  | sectionLine (s : CurSection)
  | blankLine
  | contentLine
  deriving Repr, DecidableEq

/-- The `if/elif` chain of `_parse_analysis` applied to a raw line (the
line is stripped first, mirroring `line = line.strip()`). -/
def classifyLine (rawLine : List Char) : LineClass :=
  if pyIn "VERDICT:".data ((pyStrip rawLine).map Char.toUpper) then LineClass.verdictLine
  else if pyIn "CONFIDENCE:".data ((pyStrip rawLine).map Char.toUpper) then LineClass.confidenceLine
  else if pyIn "SETUP TYPE:".data ((pyStrip rawLine).map Char.toUpper) then LineClass.setupLine
  else if pyIn "MARKET STORY".data ((pyStrip rawLine).map Char.toUpper) then LineClass.sectionLine CurSection.story
  else if pyIn "KEY CONFLUENCES".data ((pyStrip rawLine).map Char.toUpper) then LineClass.sectionLine CurSection.confluences
  else if pyIn "SCENARIO A".data ((pyStrip rawLine).map Char.toUpper) then LineClass.sectionLine CurSection.scenario_a
  else if pyIn "SCENARIO B".data ((pyStrip rawLine).map Char.toUpper) then LineClass.sectionLine CurSection.scenario_b
  else if pyIn "SCENARIO C".data ((pyStrip rawLine).map Char.toUpper) then LineClass.sectionLine CurSection.scenario_c
  else if pyIn "CRITICAL LEVELS".data ((pyStrip rawLine).map Char.toUpper) then LineClass.sectionLine CurSection.levels
  else if (pyStrip rawLine).isEmpty then LineClass.blankLine
  else LineClass.contentLine

/-- One iteration of the `for line in lines` loop of `_parse_analysis`:
dispatch on the line class and update the `parsed` record or the active
section accordingly.  The state is the `parsed` record together with
`current_section`. -/
def processLine (st : AnalysisResult × Option CurSection) (rawLine : List Char) :
    AnalysisResult × Option CurSection :=
  match classifyLine rawLine with
  | LineClass.verdictLine =>
    ({ st.1 with verdict := pyStrip (afterFirstColon (pyStrip rawLine)) }, st.2)
  | LineClass.confidenceLine =>
    match pyInt ((pyStrip (afterFirstColon (pyStrip rawLine))).filter Char.isDigit) with
    | some n => ({ st.1 with confidence := n }, st.2)
    | none => (st.1, st.2)
  | LineClass.setupLine =>
    ({ st.1 with setup_type := pyStrip (afterFirstColon (pyStrip rawLine)) }, st.2)
  | LineClass.sectionLine s => (st.1, some s)
  | LineClass.blankLine => (st.1, st.2)
  | LineClass.contentLine =>
    match st.2 with
    | none => (st.1, st.2)
    | some CurSection.story =>
      ({ st.1 with market_story := st.1.market_story ++ pyStrip rawLine ++ [' '] }, st.2)
    | some CurSection.confluences =>
      match pyStrip rawLine with
      | '-' :: r => ({ st.1 with confluences := st.1.confluences ++ [pyStrip r] }, st.2)
      | _ => (st.1, st.2)
    | some CurSection.scenario_a =>
      if (pyStrip rawLine).contains ':' then
        ({ st.1 with scenario_a := dictInsert st.1.scenario_a (normKey (beforeFirstColon (pyStrip rawLine))) (pyStrip (afterFirstColon (pyStrip rawLine))) }, st.2)
      else (st.1, st.2)
    | some CurSection.scenario_b =>
      if (pyStrip rawLine).contains ':' then
        ({ st.1 with scenario_b := dictInsert st.1.scenario_b (normKey (beforeFirstColon (pyStrip rawLine))) (pyStrip (afterFirstColon (pyStrip rawLine))) }, st.2)
      else (st.1, st.2)
    | some CurSection.scenario_c =>
      if (pyStrip rawLine).contains ':' then
        ({ st.1 with scenario_c := dictInsert st.1.scenario_c (normKey (beforeFirstColon (pyStrip rawLine))) (pyStrip (afterFirstColon (pyStrip rawLine))) }, st.2)
      else (st.1, st.2)
    | some CurSection.levels => (st.1, st.2)

/-- Embedding of `FuryTraderAI._parse_analysis(text, pair)`: split on
newlines, run the line loop from the default record with no active
section, and return the record. -/
def _parse_analysis (text pair : List Char) : AnalysisResult :=
  ((splitNl text).foldl processLine (initResult pair, none)).1

/-- Exception-aware variant of `pyInt`: `int(s)` raises `ValueError` on a
string with no digits, modelled as an `Except` error. -/
def pyIntE (s : List Char) : Except (List Char) Int :=
  match pyInt s with
  | some n => Except.ok n
  | none => Except.error "ValueError".data

/-- Exception-aware variant of `processLine`: the `int` conversion in the
`CONFIDENCE:` branch is the one fallible statement of the loop body, and it
sits inside `try: ... except: pass`, so a raised `ValueError` leaves the
state unchanged instead of escaping.  Every branch therefore returns
`Except.ok`. -/
def processLineE (st : AnalysisResult × Option CurSection) (rawLine : List Char) :
    Except (List Char) (AnalysisResult × Option CurSection) :=
  match classifyLine rawLine with
  | LineClass.confidenceLine =>
    match pyIntE ((pyStrip (afterFirstColon (pyStrip rawLine))).filter Char.isDigit) with
    | Except.ok n => Except.ok ({ st.1 with confidence := n }, st.2)
    | Except.error _ => Except.ok (st.1, st.2)
  | _ => Except.ok (processLine st rawLine)

/-- Exception-aware run of the `_parse_analysis` line loop: errors of
`processLineE` would propagate through the monadic fold. -/
def parseAnalysisE (text pair : List Char) : Except (List Char) AnalysisResult :=
  Except.map Prod.fst ((splitNl text).foldlM processLineE (initResult pair, none))

/-- The shape of the dictionary returned by `analyze_chart`: the success
record carries the raw reply text and the parsed record, the failure record
carries only the error message; both repeat the caller's pair and
timeframes. -/
inductive AnalysisOutcome where
  | ok (raw_analysis : List Char) (parsed : AnalysisResult) (pair : List Char)
      (timeframes : List (List Char))
  | fail (error : List Char) (pair : List Char) (timeframes : List (List Char))
  deriving Repr, DecidableEq

/-- Embedding of `FuryTraderAI.analyze_chart`, with the external Model call
abstracted as its outcome: either the reply text or a raised exception's
string description (`str(e)`). -/
def analyze_chart (modelResponse : Except (List Char) (List Char)) (pair : List Char)
    (timeframes : List (List Char)) : AnalysisOutcome :=
  match modelResponse with
  | Except.ok analysis_text =>
    AnalysisOutcome.ok analysis_text (_parse_analysis analysis_text pair) pair timeframes
  | Except.error e => AnalysisOutcome.fail e pair timeframes

/-- Exception-aware variant of `analyze_chart`: the `try` block performs
the Model call and, on success, the parse and the construction of the
success record; the `except Exception as e` handler converts any raised
error into the failure record instead of letting it escape. -/
def analyze_chartE (modelResponse : Except (List Char) (List Char)) (pair : List Char)
    (timeframes : List (List Char)) : Except (List Char) AnalysisOutcome :=
  match Except.bind modelResponse (fun analysis_text =>
      Except.ok (AnalysisOutcome.ok analysis_text (_parse_analysis analysis_text pair)
        pair timeframes)) with
  | Except.ok r => Except.ok r
  | Except.error e => Except.ok (AnalysisOutcome.fail e pair timeframes)

/-- One element of the `content` list sent to the Model: an image payload
with its detail hint, or a text segment. -/
inductive ChatPart where
  | image (url : List Char) (detail : List Char)
  | text (content : List Char)
  deriving Repr, DecidableEq

/-- Caption text attached after chart number `n`: the Python f-string
`f"[Chart \x7bidx+1\x7d: \x7btf\x7d timeframe]"`. -/
def chartCaption (n : Nat) (tf : List Char) : List Char :=
  "[Chart ".data ++ (Nat.repr n).data ++ ": ".data ++ tf ++ " timeframe]".data

/-- The `for idx, img_bytes in enumerate(images)` loop of `analyze_chart`,
carrying the running index: each image contributes an image part (base64
data URL, `"high"` detail) followed by its caption text part; the
timeframe label is `timeframes[idx]` when the index is in range and
`"Unknown"` otherwise. -/
def buildImageMessagesAux {α : Type} (enc : α → List Char) (timeframes : List (List Char)) :
    Nat → List α → List ChatPart
  | _, [] => []
  | idx, img :: rest =>
    ChatPart.image ("data:image/jpeg;base64,".data ++ enc img) "high".data ::
    ChatPart.text (chartCaption (idx + 1) (timeframes.getD idx "Unknown".data)) ::
    buildImageMessagesAux enc timeframes (idx + 1) rest

/-- The `image_messages` list built by `analyze_chart`, with the base64
encoding of the opaque image bytes abstracted as `enc`. -/
def image_messages {α : Type} (enc : α → List Char) (images : List α)
    (timeframes : List (List Char)) : List ChatPart :=
  buildImageMessagesAux enc timeframes 0 images

/-- Modelled from the spec (§3/§4.2 of the specification, for the
refinement statement about `market_story`): join a list of lines by
appending a single trailing space to each. -/
def spaceJoin (ls : List (List Char)) : List Char :=
  ls.foldr (fun l acc => l ++ ' ' :: acc) []

/-- Modelled from the spec: one step of collecting the story-section
content lines — the non-empty trimmed lines processed while the current
section is `story`, with header-field lines and section-header lines
excluded.  The section transitions mirror `_parse_analysis`. -/
def storyStep (st : List (List Char) × Option CurSection) (rawLine : List Char) :
    List (List Char) × Option CurSection :=
  match classifyLine rawLine with
  | LineClass.sectionLine s => (st.1, some s)
  | LineClass.contentLine =>
    match st.2 with
    | some CurSection.story => (st.1 ++ [pyStrip rawLine], st.2)
    | _ => (st.1, st.2)
  | _ => (st.1, st.2)

/-- Modelled from the spec: the story-section content lines of a reply, in
input order. -/
def storyLines (text : List Char) : List (List Char) :=
  ((splitNl text).foldl storyStep ([], none)).1


theorem processLine_key_levels (st : AnalysisResult × Option CurSection) (l : List Char) :
    (processLine st l).1.key_levels = st.1.key_levels := by
  unfold processLine
  repeat' split <;> try (first | rfl | simp)

theorem foldl_key_levels (lines : List (List Char)) :
    ∀ st : AnalysisResult × Option CurSection,
      (lines.foldl processLine st).1.key_levels = st.1.key_levels := by
  induction lines with
  | nil => intro st; rfl
  | cons l ls ih =>
    intro st
    calc (List.foldl processLine st (l :: ls)).1.key_levels
        = (processLine st l).1.key_levels := ih (processLine st l)
      _ = st.1.key_levels := processLine_key_levels st l

theorem processLineE_eq (st : AnalysisResult × Option CurSection) (l : List Char) :
    processLineE st l = Except.ok (processLine st l) := by
  unfold processLineE processLine pyIntE
  cases hc : classifyLine l
  all_goals simp only [hc]
  cases hp : pyInt ((pyStrip (afterFirstColon (pyStrip l))).filter Char.isDigit)
  all_goals simp only [hp]

theorem foldlM_processLineE (lines : List (List Char)) :
    ∀ st : AnalysisResult × Option CurSection,
      lines.foldlM processLineE st = Except.ok (lines.foldl processLine st) := by
  induction lines with
  | nil => intro st; rfl
  | cons l ls ih =>
    intro st
    rw [List.foldlM_cons, processLineE_eq]
    simpa using ih (processLine st l)

/-- C1: the parser is total — the exception-aware model of `_parse_analysis`
returns `Except.ok` of the plain model's record on every input string and
pair; the `int` conversion inside the bare `except` is the only fallible
step and never escapes. -/
theorem parser_is_total (text pair : List Char) :
    parseAnalysisE text pair = Except.ok (_parse_analysis text pair) := by
  unfold parseAnalysisE _parse_analysis
  rw [foldlM_processLineE]
  rfl

/-- C2: parsing the empty string yields the all-defaults record, with the
caller-supplied pair. -/
theorem parse_empty_defaults (pair : List Char) :
    _parse_analysis [] pair =
      { pair := pair, verdict := "UNKNOWN".data, confidence := 5,
        setup_type := "Unknown".data, market_story := [], confluences := [],
        scenario_a := [], scenario_b := [], scenario_c := [], key_levels := [] } := rfl

/-- C7: `key_levels` is empty for every input: no branch of the line loop
ever writes into it. -/
theorem key_levels_always_empty (text pair : List Char) :
    (_parse_analysis text pair).key_levels = [] := by
  unfold _parse_analysis
  rw [foldl_key_levels]
  rfl

/-- C8: `analyze_chart` never raises — the exception-aware model always
returns `Except.ok` — and on a Model failure it returns the failure record
with the error text, pair and timeframes (no parse attempted), while on a
Model success it returns the success record with the raw text and the
parsed result. -/
theorem analyze_chart_outcomes (modelResponse : Except (List Char) (List Char))
    (pair : List Char) (timeframes : List (List Char)) :
    analyze_chartE modelResponse pair timeframes
        = Except.ok (analyze_chart modelResponse pair timeframes)
    ∧ (∀ e, analyze_chart (Except.error e) pair timeframes
        = AnalysisOutcome.fail e pair timeframes)
    ∧ (∀ t, analyze_chart (Except.ok t) pair timeframes
        = AnalysisOutcome.ok t (_parse_analysis t pair) pair timeframes) := by
  refine ⟨?_, fun e => rfl, fun t => rfl⟩
  cases modelResponse <;> rfl

/-- C3: on a line whose upper-cased form contains `CONFIDENCE:` (and not
`VERDICT:`, which is checked first), the new confidence is the integer
parse of the concatenation of all digit characters after the first colon,
and the old value is kept when that parse fails; concretely
`"CONFIDENCE: 8/10"` yields `810`, and a digit-free confidence line leaves
an earlier value `7` untouched (no reset to the default `5`). -/
theorem confidence_digit_concat :
    (∀ (st : AnalysisResult × Option CurSection) (l : List Char),
      pyIn "VERDICT:".data ((pyStrip l).map Char.toUpper) = false →
      pyIn "CONFIDENCE:".data ((pyStrip l).map Char.toUpper) = true →
      (processLine st l).1.confidence =
        (match pyInt ((pyStrip (afterFirstColon (pyStrip l))).filter Char.isDigit) with
          | some n => n
          | none => st.1.confidence))
    ∧ (_parse_analysis "CONFIDENCE: 8/10".data "EUR/USD".data).confidence = 810
    ∧ (_parse_analysis "CONFIDENCE: 7\nCONFIDENCE: high".data "EUR/USD".data).confidence = 7 := by
  refine ⟨?_, by decide, by decide⟩
  intro st l h1 h2
  have hc : classifyLine l = LineClass.confidenceLine := by
    simp [classifyLine, h1, h2]
  unfold processLine
  rw [hc]
  cases hp : pyInt ((pyStrip (afterFirstColon (pyStrip l))).filter Char.isDigit) <;>
    simp [hp]

theorem confidence_digit_concat_witness :
    (processLine (initResult "EUR/USD".data, none) "CONFIDENCE: 9 of 10".data).1.confidence
      = 910 := by
  have h := confidence_digit_concat.1 (initResult "EUR/USD".data, none)
    "CONFIDENCE: 9 of 10".data (by decide) (by decide)
  exact h.trans (by decide)

/-- C4: section accumulation on the canonical sample — confluences are
collected in order with the dash stripped and trimmed, scenario lines are
split on the first colon with the key trimmed, lower-cased and
space-to-underscore normalized; `"Take Profit: 1.2600"` is stored under
`take_profit`. -/
theorem section_accumulation :
    (_parse_analysis "KEY CONFLUENCES:\n- FVG present\n- Clean structure\nSCENARIO A - THE PRIMARY\nEntry: 1.2500\nStop Loss: 1.2450\n".data "EUR/USD".data).confluences
      = ["FVG present".data, "Clean structure".data]
    ∧ (_parse_analysis "KEY CONFLUENCES:\n- FVG present\n- Clean structure\nSCENARIO A - THE PRIMARY\nEntry: 1.2500\nStop Loss: 1.2450\n".data "EUR/USD".data).scenario_a
      = [("entry".data, "1.2500".data), ("stop_loss".data, "1.2450".data)]
    ∧ (_parse_analysis "SCENARIO A\nTake Profit: 1.2600".data "EUR/USD".data).scenario_a
      = [("take_profit".data, "1.2600".data)] := by decide

/-- C5 counterexample: the line `"CONFIDENCE: none"` matches the
`CONFIDENCE:` header pattern (and not `VERDICT:`), yet processing it does
not overwrite the field: after `"CONFIDENCE: 7\nCONFIDENCE: none"` the
confidence is still `7` from the first matching line, and on the default
state the same line leaves the default `5` — so "every matching line
overwrites the field unconditionally / last match wins" fails for
confidence. -/
theorem header_overwrite_counterexample :
    pyIn "CONFIDENCE:".data ((pyStrip "CONFIDENCE: none".data).map Char.toUpper) = true
    ∧ pyIn "VERDICT:".data ((pyStrip "CONFIDENCE: none".data).map Char.toUpper) = false
    ∧ (_parse_analysis "CONFIDENCE: 7\nCONFIDENCE: none".data "EUR/USD".data).confidence = 7
    ∧ (processLine (initResult "EUR/USD".data, none) "CONFIDENCE: none".data).1.confidence
        = 5 := by decide

/-- C5 (amended): for `verdict` and `setup_type`, every line matching the
corresponding header pattern overwrites the field unconditionally —
whatever the previous state, so the last matching line wins; for
`confidence` a matching line overwrites exactly when the integer parse of
its post-colon digit concatenation succeeds, so the last successfully
parsed matching line wins. -/
theorem header_last_match_wins (st : AnalysisResult × Option CurSection) (l : List Char) :
    (pyIn "VERDICT:".data ((pyStrip l).map Char.toUpper) = true →
      (processLine st l).1.verdict = pyStrip (afterFirstColon (pyStrip l)))
    ∧ (pyIn "VERDICT:".data ((pyStrip l).map Char.toUpper) = false →
       pyIn "CONFIDENCE:".data ((pyStrip l).map Char.toUpper) = true →
       ∀ n : Int, pyInt ((pyStrip (afterFirstColon (pyStrip l))).filter Char.isDigit) = some n →
         (processLine st l).1.confidence = n)
    ∧ (pyIn "VERDICT:".data ((pyStrip l).map Char.toUpper) = false →
       pyIn "CONFIDENCE:".data ((pyStrip l).map Char.toUpper) = false →
       pyIn "SETUP TYPE:".data ((pyStrip l).map Char.toUpper) = true →
         (processLine st l).1.setup_type = pyStrip (afterFirstColon (pyStrip l))) := by
  refine ⟨fun h1 => ?_, fun h1 h2 n hn => ?_, fun h1 h2 h3 => ?_⟩
  · have hc : classifyLine l = LineClass.verdictLine := by simp [classifyLine, h1]
    unfold processLine
    rw [hc]
  · have hc : classifyLine l = LineClass.confidenceLine := by simp [classifyLine, h1, h2]
    unfold processLine
    rw [hc, hn]
  · have hc : classifyLine l = LineClass.setupLine := by simp [classifyLine, h1, h2, h3]
    unfold processLine
    rw [hc]

theorem header_last_match_wins_witness :
    (processLine (initResult "EUR/USD".data, none) "VERDICT: NO".data).1.verdict = "NO".data
    ∧ (processLine (initResult "EUR/USD".data, none) "CONFIDENCE: 8/10".data).1.confidence = 810
    ∧ (processLine (initResult "EUR/USD".data, none) "SETUP TYPE: Day".data).1.setup_type
        = "Day".data := by
  refine ⟨?_, ?_, ?_⟩
  · exact ((header_last_match_wins (initResult "EUR/USD".data, none) "VERDICT: NO".data).1
      (by decide)).trans (by decide)
  · exact (header_last_match_wins (initResult "EUR/USD".data, none) "CONFIDENCE: 8/10".data).2.1
      (by decide) (by decide) 810 (by decide)
  · exact ((header_last_match_wins (initResult "EUR/USD".data, none) "SETUP TYPE: Day".data).2.2
      (by decide) (by decide) (by decide)).trans (by decide)

theorem spaceJoin_append (ls : List (List Char)) (x : List Char) :
    spaceJoin (ls ++ [x]) = spaceJoin ls ++ x ++ [' '] := by
  induction ls with
  | nil => rfl
  | cons a as ih => simp [spaceJoin] at ih ⊢; simp [ih]

theorem spaceJoin_getLast (ls : List (List Char)) :
    spaceJoin ls = [] ∨ (spaceJoin ls).getLast? = some ' ' := by
  induction ls with
  | nil => left; rfl
  | cons x xs ih =>
    right
    show (x ++ ' ' :: spaceJoin xs).getLast? = some ' '
    rw [List.getLast?_append_cons]
    rcases ih with h | h
    · rw [h]; rfl
    · cases hx : spaceJoin xs with
      | nil => rfl
      | cons c m => rw [List.getLast?_cons_cons, ← hx]; exact h

theorem storyStep_market_story (p : AnalysisResult) (s : Option CurSection)
    (acc : List (List Char)) (l : List Char) (h : p.market_story = spaceJoin acc) :
    (processLine (p, s) l).1.market_story = spaceJoin ((storyStep (acc, s) l).1)
    ∧ (processLine (p, s) l).2 = (storyStep (acc, s) l).2 := by
  unfold processLine storyStep
  cases hc : classifyLine l <;> simp only [hc] <;>
    (repeat' split) <;> simp_all [spaceJoin_append]

theorem foldl_market_story (lines : List (List Char)) :
    ∀ (p : AnalysisResult) (s : Option CurSection) (acc : List (List Char)),
      p.market_story = spaceJoin acc →
      (lines.foldl processLine (p, s)).1.market_story
        = spaceJoin ((lines.foldl storyStep (acc, s)).1) := by
  induction lines with
  | nil => intro p s acc h; simpa using h
  | cons l ls ih =>
    intro p s acc h
    have hs := storyStep_market_story p s acc l h
    simp only [List.foldl_cons]
    have := ih (processLine (p, s) l).1 (processLine (p, s) l).2
      ((storyStep (acc, s) l).1) hs.1
    nth_rewrite 2 [hs.2] at this
    simpa using this

/-- C6: `market_story` is exactly the space-join — each line followed by
one trailing space — of the non-empty trimmed lines processed while the
current section is `story` (header-field and section-header lines
excluded), and consequently a non-empty `market_story` ends with a space
character. -/
theorem market_story_space_joined (text pair : List Char) :
    (_parse_analysis text pair).market_story = spaceJoin (storyLines text)
    ∧ ((_parse_analysis text pair).market_story = []
        ∨ (_parse_analysis text pair).market_story.getLast? = some ' ') := by
  have h1 : (_parse_analysis text pair).market_story = spaceJoin (storyLines text) :=
    foldl_market_story (splitNl text) (initResult pair) none [] rfl
  exact ⟨h1, by rw [h1]; exact spaceJoin_getLast (storyLines text)⟩

theorem buildImageMessagesAux_caption {α : Type} (enc : α → List Char)
    (tfs : List (List Char)) (imgs : List α) :
    ∀ (idx i : Nat), i < imgs.length →
      (buildImageMessagesAux enc tfs idx imgs).get? (2 * i + 1)
        = some (ChatPart.text (chartCaption (idx + i + 1) (tfs.getD (idx + i) "Unknown".data))) := by
  induction imgs with
  | nil => intro idx i h; exact absurd h (by simp)
  | cons a rest ih =>
    intro idx i h
    cases i with
    | zero => rfl
    | succ j =>
      have h' : j < rest.length := Nat.lt_of_succ_lt_succ (by simpa using h)
      have hrec := ih (idx + 1) j h'
      rw [show 2 * (j + 1) + 1 = (2 * j + 1) + 1 + 1 by ring]
      show (buildImageMessagesAux enc tfs (idx + 1) rest).get? (2 * j + 1) = _
      rw [hrec]
      rw [show idx + 1 + j = idx + (j + 1) by omega]

/-- C9: for every image index `i` in range, the message list carries at
position `2*i+1` the caption text `"[Chart <i+1>: <tf> timeframe]"`, where
`tf` is `timeframes[i]` when `i` is within the timeframe list and
`"Unknown"` otherwise — a short timeframe list never causes a failure or a
missing caption. -/
theorem image_caption_defaulting {α : Type} (enc : α → List Char) (images : List α)
    (timeframes : List (List Char)) (i : Nat) (h : i < images.length) :
    (image_messages enc images timeframes).get? (2 * i + 1)
      = some (ChatPart.text (chartCaption (i + 1) (timeframes.getD i "Unknown".data))) := by
  have := buildImageMessagesAux_caption enc timeframes images 0 i h
  simpa using this

theorem image_caption_defaulting_witness :
    (1 : Nat) < 2
    ∧ (image_messages (fun _ : Unit => []) [(), ()] ["4H".data]).get? 3
        = some (ChatPart.text (chartCaption 2 "Unknown".data)) := by
  refine ⟨by decide, ?_⟩
  have := image_caption_defaulting (fun _ : Unit => []) [(), ()] ["4H".data] 1 (by decide)
  simpa using this

theorem dropWhile_append_right (p : Char → Bool) (l1 l2 : List Char)
    (h : l1.dropWhile p ≠ []) :
    (l1 ++ l2).dropWhile p = l1.dropWhile p ++ l2 := by
  induction l1 with
  | nil => simp at h
  | cons a as ih =>
    by_cases hp : p a
    · rw [List.cons_append, List.dropWhile_cons_of_pos hp, List.dropWhile_cons_of_pos hp]
      rw [List.dropWhile_cons_of_pos hp] at h
      exact ih h
    · rw [List.cons_append, List.dropWhile_cons_of_neg hp,
        List.dropWhile_cons_of_neg hp, List.cons_append]

theorem pyStrip_dash_space (b : List Char) (hb : b.any (fun c => ¬ isPySpace c) = true) :
    pyStrip ('-' :: ' ' :: b) = '-' :: ' ' :: (b.reverse.dropWhile isPySpace).reverse := by
  have h2 : b.reverse.dropWhile isPySpace ≠ [] := by
    rw [Ne, List.dropWhile_eq_nil_iff]
    intro hall
    rcases List.any_eq_true.mp hb with ⟨c, hc, hcp⟩
    have := hall c (List.mem_reverse.mpr hc)
    simp only [decide_eq_true_eq] at hcp
    exact hcp this
  have h1 : List.dropWhile isPySpace ('-' :: ' ' :: b) = '-' :: ' ' :: b :=
    List.dropWhile_cons_of_neg (by decide)
  unfold pyStrip
  rw [h1]
  rw [show ('-' :: ' ' :: b).reverse = b.reverse ++ [' ', '-'] by simp]
  rw [dropWhile_append_right isPySpace b.reverse [' ', '-'] h2]
  simp

theorem normKey_dash (b : List Char) (hb : b.any (fun c => ¬ isPySpace c) = true) :
    startsWithL (normKey ('-' :: ' ' :: b)) "-_".data = true := by
  unfold normKey
  rw [pyStrip_dash_space b hb]
  simp [startsWithL]

/-- C10 counterexample: in an active scenario section, the content line
`"- : v"` begins with `"- "` but is stored under the key `"-"`, which does
not carry a `"-_"` prefix — the universal claim fails when only whitespace
stands between the dash and the colon. -/
theorem dash_key_counterexample :
    (_parse_analysis "SCENARIO A\n- : v".data "EUR/USD".data).scenario_a
      = [("-".data, "v".data)]
    ∧ startsWithL "-".data "-_".data = false := by decide

/-- C10 (amended): scenario key normalization never strips a leading dash:
`"- Entry: 1.2500"` inside an active scenario section is stored under
`"-_entry"`, not `"entry"`; and for every scenario content line beginning
with `"- "` whose pre-colon part has a non-whitespace character after the
dash, the normalized key carries a `"-_"` prefix (when only whitespace
precedes the colon the key collapses to `"-"`). -/
theorem dash_key_kept :
    (_parse_analysis "SCENARIO A\n- Entry: 1.2500".data "EUR/USD".data).scenario_a
      = [("-_entry".data, "1.2500".data)]
    ∧ ∀ b : List Char, b.any (fun c => ¬ isPySpace c) = true →
        startsWithL (normKey ('-' :: ' ' :: b)) "-_".data = true := by
  exact ⟨by decide, fun b hb => normKey_dash b hb⟩

theorem dash_key_kept_witness :
    startsWithL (normKey ('-' :: ' ' :: "Entry".data)) "-_".data = true :=
  dash_key_kept.2 "Entry".data (by decide)

end AApp
